import Mathlib

/-!
Verification of the QEMU test-harness core of the uefi-rs build scripts.

The repository contains two variants of the harness:
* `src/build.py` (`run_qemu`, lines 253-421): monitors a dedicated serial
  named pipe for `SCREENSHOT:` trigger lines;
* `src/uefi-test-runner/build.py` (`run_qemu`, lines 177-339): monitors the
  QEMU stdout stream, stripping ANSI escapes, for the same trigger lines.

Both talk QMP over a named-pipe pair: a capabilities handshake, then a
`screendump` command per trigger, with a reply-correlation loop that skips
asynchronous event messages.  This file gives a shallow embedding of that
harness: Python strings become `List Char`, the JSON wire messages become a
small JSON value type, the monitoring loop becomes a step function over an
explicit state, and process/filesystem effects are recorded in result
structures.
-/

/-! # Definitions -/

/-! ## Python string primitives -/

/-- ASCII whitespace recognised by Python's `str.strip` family. -/
def isPyWs (c : Char) : Bool :=
  c == ' ' || c == '\t' || c == '\n' || c == '\r' || c == '\x0b' || c == '\x0c'

/-- Python `str.rstrip()`: remove trailing whitespace. -/
def pyRstrip (l : List Char) : List Char :=
  (l.reverse.dropWhile isPyWs).reverse

/-- Python `str.strip()`: remove leading and trailing whitespace. -/
def pyStrip (l : List Char) : List Char :=
  pyRstrip (l.dropWhile isPyWs)

/-! ## ANSI/CSI escape stripping

Both scripts build the regex `(\x9B|\x1B\[)` followed by the classes
`[0-?]*` (parameter bytes 0x30-0x3F, star), then intermediate bytes
0x20-0x2F (star), then one final byte `[@-~]` (0x40-0x7E)
(`src/build.py` line 232, `src/uefi-test-runner/build.py` line 268) and
remove every match with `re.sub(..., '')`.  The three character classes
are pairwise disjoint, so the regex matches deterministically: after the
introducer, a maximal run of parameter bytes, then a maximal run of
intermediate bytes, then one final byte.  `re.sub` scans left to right,
removing non-overlapping matches and resuming after each match; the
scanner below transcribes exactly that, with a fuel argument (one unit
per scan step, `l.length` always suffices since every step consumes at
least one character) to keep the recursion structural. -/

/-- CSI parameter byte, regex class `[0-?]`. -/
def isCsiParam (c : Char) : Bool := 0x30 ≤ c.toNat && c.toNat ≤ 0x3f

/-- CSI intermediate byte, regex class of the bytes 0x20 to 0x2F. -/
def isCsiInterm (c : Char) : Bool := 0x20 ≤ c.toNat && c.toNat ≤ 0x2f

/-- CSI final byte, regex class `[@-~]`. -/
def isCsiFinal (c : Char) : Bool := 0x40 ≤ c.toNat && c.toNat ≤ 0x7e

/-- The ESC character `\x1B`. -/
def escChar : Char := Char.ofNat 0x1b

/-- The 8-bit CSI introducer `\x9B`. -/
def csi8Char : Char := Char.ofNat 0x9b

/-- Match one final byte at the head of `l`; return the suffix after it. -/
def matchFinal : List Char → Option (List Char)
  | c :: rest => if isCsiFinal c then some rest else none
  | [] => none

/-- Match the regex body (parameter bytes star, intermediate bytes star,
one final byte) at the head of `l`; return the suffix after the match. -/
def matchCsiBody (l : List Char) : Option (List Char) :=
  matchFinal ((l.dropWhile isCsiParam).dropWhile isCsiInterm)

/-- Match the whole escape regex (either introducer, then the body) at
the head of `l`; return the suffix after the match. -/
def matchCsi : List Char → Option (List Char)
  | [] => none
  | [c] => if c == csi8Char then matchCsiBody [] else none
  | c :: c2 :: rest2 =>
    if c == csi8Char then matchCsiBody (c2 :: rest2)
    else if c == escChar && c2 == '[' then matchCsiBody rest2
    else none

/-- One `re.sub` pass: scan left to right, drop each match, resume after
it, copy non-matching characters.  `fuel` bounds the number of scan
steps. -/
def stripAnsiGo : Nat → List Char → List Char
  | 0, l => l
  | _ + 1, [] => []
  | fuel + 1, c :: cs =>
    match matchCsi (c :: cs) with
    | some rest => stripAnsiGo fuel rest
    | none => c :: stripAnsiGo fuel cs

/-- `ansi_escape.sub('', line)`: remove every escape-sequence match. -/
def stripAnsi (l : List Char) : List Char := stripAnsiGo l.length l

/-- Whether the escape regex matches anywhere in `l` (i.e. `re.search`
would find a match). -/
def containsCsi : List Char → Bool
  | [] => false
  | c :: cs => (matchCsi (c :: cs)).isSome || containsCsi cs

/-! ## Trigger extraction

The serial-pipe variant (`src/build.py` lines 370-382) processes each
serial line with

    line = line.rstrip()
    if line.startswith("SCREENSHOT: "):
        reference_name = line[12:]

The stdout variant (`src/uefi-test-runner/build.py` lines 288-302) does
the same on the whitespace-stripped, ANSI-stripped stdout line. -/

/-- The fixed trigger marker `"SCREENSHOT: "` (12 characters, trailing
space included). -/
def trigMarker : List Char := "SCREENSHOT: ".data

/-- Trigger extraction of the serial-pipe variant: rstrip the raw line,
test the marker, take the remainder from index 12. -/
def extractTrigger (raw : List Char) : Option (List Char) :=
  let line := pyRstrip raw
  if trigMarker.isPrefixOf line then some (line.drop 12) else none

/-- A list is free of trailing whitespace when its last element, if any,
is not whitespace. -/
def noTrailingWs (l : List Char) : Bool :=
  match l.getLast? with
  | some c => !isPyWs c
  | none => true

/-! ## JSON wire messages

QMP messages are newline-delimited JSON objects.  `JValue` models the JSON
values appearing inside a message; a decoded top-level message (`JMsg`) is
its list of key/value fields, which is what `json.loads` produces for the
object messages the harness deals with. -/

mutual
inductive JValue : Type where
  | jnull : JValue
  | jbool : Bool → JValue
  | jnum : Int → JValue
  | jstr : String → JValue
  | jobj : JFields → JValue

inductive JFields : Type where
  | fnil : JFields
  | fcons : String → JValue → JFields → JFields
end

/-- A decoded top-level QMP message: the fields of a JSON object. -/
def JMsg : Type := List (String × JValue)

/-- Python `"event" in reply` on a decoded JSON object: key membership. -/
def hasEventKey (m : JMsg) : Bool :=
  m.any (fun kv => kv.1 == "event")

/-- Python `reply == {"return": {}}`: the canonical empty-success reply. -/
def isEmptySuccess (m : JMsg) : Bool :=
  match m with
  | [("return", JValue.jobj JFields.fnil)] => true
  | _ => false

/-- Key membership in a decoded JSON object. -/
def hasKeyMsg (m : JMsg) (k : String) : Bool :=
  m.any (fun kv => kv.1 == k)

/-! ## JSON serialization

A standard serializer for the JSON model (the format `json.dumps` uses:
`", "` between fields, `": "` after keys).  It relates the object view of
a message to the textual line the harness actually inspects, which is
what the handshake claim is about. -/

mutual
/-- Serialize a JSON value to text. -/
def serializeVal : JValue → List Char
  | .jnull => "null".data
  | .jbool true => "true".data
  | .jbool false => "false".data
  | .jnum n => (toString n).data
  | .jstr s => '"' :: s.data ++ ['"']
  | .jobj fs => '\x7b' :: serializeJFields fs ++ ['\x7d']

/-- Serialize the fields of a nested JSON object. -/
def serializeJFields : JFields → List Char
  | .fnil => []
  | .fcons k v .fnil => '"' :: k.data ++ ['"', ':', ' '] ++ serializeVal v
  | .fcons k v (.fcons k2 v2 r) =>
      '"' :: k.data ++ ['"', ':', ' '] ++ serializeVal v ++ [',', ' '] ++
        serializeJFields (.fcons k2 v2 r)
end

/-- Serialize the fields of a top-level message. -/
def serializeEntries : List (String × JValue) → List Char
  | [] => []
  | [(k, v)] => '"' :: k.data ++ ['"', ':', ' '] ++ serializeVal v
  | (k, v) :: e :: rest =>
      '"' :: k.data ++ ['"', ':', ' '] ++ serializeVal v ++ [',', ' '] ++
        serializeEntries (e :: rest)

/-- Serialize a top-level message to the JSON text line carrying it. -/
def serializeMsg (m : JMsg) : List Char :=
  '\x7b' :: serializeEntries m ++ ['\x7d']

/-! ## Capabilities handshake

Both variants run the identical handshake (`src/build.py` lines 364-367,
`src/uefi-test-runner/build.py` lines 282-285):

    assert monitor_output.readline().startswith(BANNER_MARKER)
    print(CAPS_CMD, file=monitor_input, flush=True)
    assert monitor_output.readline() == ACK_REPLY

where the marker is the text of a brace followed by a quoted QMP key and
colon, the command is the literal qmp_capabilities execute object, and
the expected ack is the literal empty-success line. -/

/-- The literal prefix the first monitor line is tested against. -/
def bannerMarkerText : List Char := "\x7b\"QMP\":".data

/-- The literal capabilities-acknowledgement command written to the
monitor. -/
def capsCmdText : List Char := "\x7b\"execute\": \"qmp_capabilities\"\x7d".data

/-- The literal line the second monitor read must equal (newline
included, as `readline` keeps it). -/
def ackReplyText : List Char := "\x7b\"return\": \x7b\x7d\x7d\n".data

/-- Which handshake assertion failed, if any. -/
inductive HandshakeError : Type where
  | badBanner : HandshakeError
  | badAck : HandshakeError
deriving DecidableEq

/-- Result of the handshake: the commands written to the monitor stream,
and the assertion failure if one occurred. -/
structure HandshakeResult : Type where
  writes : List (List Char)
  err : Option HandshakeError
deriving DecidableEq

/-- The handshake over the first two monitor reply lines: assert the
banner prefix, write the capabilities command, assert the exact ack
line. -/
def handshake (l1 l2 : List Char) : HandshakeResult :=
  if bannerMarkerText.isPrefixOf l1 then
    if l2 = ackReplyText then ⟨[capsCmdText], none⟩
    else ⟨[capsCmdText], some .badAck⟩
  else ⟨[], some .badBanner⟩

/-! ## Reply-correlation loops

Both variants contain the identical loop

    reply = json.loads(monitor_output.readline())
    while "event" in reply:
        reply = json.loads(monitor_output.readline())

(`src/build.py` lines 388-391, `src/uefi-test-runner/build.py` lines
308-311).  Each is transcribed over the list of decoded messages available
on the monitor reply stream.  The result is `(discarded, reply, rest)`:
the event messages read and discarded, the returned reply, and the
messages left unread; `none` models the stream running out (in which case
`readline` returns `''` and `json.loads` raises). -/

/-- Reply-correlation loop of the serial-pipe variant (`src/build.py`). -/
def replyLoopMain : List JMsg → Option (List JMsg × JMsg × List JMsg)
  | [] => none
  | m :: rest =>
    if hasEventKey m then
      match replyLoopMain rest with
      | some (disc, r, rem) => some (m :: disc, r, rem)
      | none => none
    else
      some ([], m, rest)

/-- Reply-correlation loop of the stdout variant
(`src/uefi-test-runner/build.py`). -/
def replyLoopRunner : List JMsg → Option (List JMsg × JMsg × List JMsg)
  | [] => none
  | m :: rest =>
    if hasEventKey m then
      match replyLoopRunner rest with
      | some (disc, r, rem) => some (m :: disc, r, rem)
      | none => none
    else
      some ([], m, rest)

/-- Sample event message, as in the spec example `{"event": "STOP"}`. -/
def eventStopMsg : JMsg := [("event", JValue.jstr "STOP")]

/-- The canonical empty-success reply message `{"return": {}}`. -/
def emptySuccessMsg : JMsg := [("return", JValue.jobj JFields.fnil)]

/-! ## The monitoring loop and the run orchestrator

Shared effect/state types for both `run_qemu` variants.  A run is driven
by the data the environment supplies: the first two monitor lines, the
console lines, the decoded monitor messages after the handshake, the
bytes of each produced screenshot (in screendump order), the fixture
store (reference file bytes keyed by fixture identifier), whether
`subprocess.Popen` succeeds, and the process exit behaviour (`none` for
a process that never exits, or the exit time and code). -/

/-- The literal screendump command written to the monitor per trigger. -/
def screendumpCmdText : List Char :=
  "\x7b\"execute\": \"screendump\", \"arguments\": \x7b\"filename\": \"screenshot.ppm\"\x7d\x7d".data

/-- The literal acknowledgement token written back to the VM. -/
def okAckText : List Char := "OK".data

/-- Externally visible effects of a run: lines written to the monitor
command stream, acknowledgements written to the VM's channel
(`serial_input` in one variant, `qemu.stdin` in the other), lines echoed
to the operator, how many produced screenshot files were deleted, and
whether a byte-comparison failure occurred. -/
structure Effects : Type where
  monitorWrites : List (List Char)
  ackWrites : List (List Char)
  echoed : List (List Char)
  deleted : Nat
  cmpFailed : Bool
deriving DecidableEq

/-- No effects yet. -/
def emptyEffects : Effects := ⟨[], [], [], 0, false⟩

/-- The exceptions a run can end with: the two handshake assertion
failures, `json.loads` on an exhausted reply stream, the reply-shape
assertion, `filecmp` on a missing artifact or fixture, the
byte-comparison assertion, a `Popen` failure, and the
`CalledProcessError` raised for a disallowed exit status. -/
inductive HarnessError : Type where
  | hsBanner : HarnessError
  | hsAck : HarnessError
  | replyParse : HarnessError
  | badReply : HarnessError
  | missingArtifact : HarnessError
  | missingFixture : HarnessError
  | cmpMismatch : HarnessError
  | spawnFail : HarnessError
  | procFail : Int → HarnessError
deriving DecidableEq

/-- State threaded through the monitoring loop: unread monitor messages,
unconsumed produced screenshots, effects so far. -/
structure MonState : Type where
  msgs : List JMsg
  shots : List (List Nat)
  eff : Effects

/-- One iteration of the serial-pipe monitoring loop (`src/build.py`
lines 370-403): rstrip the line; on a trigger match echo the line, write
the screendump command, run the reply-correlation loop, assert the
canonical reply, write `OK` to the serial channel, byte-compare the
produced screenshot against the fixture (the fixture store abstracts the
`screenshots/<id>.ppm` path join), and delete the screenshot; a failed
assertion or a missing file aborts the iteration with the corresponding
exception.  A non-trigger line does nothing. -/
def monStep (fixtures : List (List Char × List Nat)) (raw : List Char)
    (st : MonState) : MonState × Option HarnessError :=
  let line := pyRstrip raw
  if trigMarker.isPrefixOf line then
    let eff1 := { st.eff with echoed := st.eff.echoed ++ [line] }
    let name := line.drop 12
    let eff2 := { eff1 with monitorWrites := eff1.monitorWrites ++ [screendumpCmdText] }
    match replyLoopMain st.msgs with
    | none => ({ st with eff := eff2, msgs := [] }, some .replyParse)
    | some (_disc, reply, rest) =>
      if isEmptySuccess reply then
        let eff3 := { eff2 with ackWrites := eff2.ackWrites ++ [okAckText] }
        match st.shots with
        | [] => ({ st with eff := eff3, msgs := rest }, some .missingArtifact)
        | shot :: shots2 =>
          match fixtures.lookup name with
          | none => ({ st with eff := eff3, msgs := rest, shots := shots2 },
              some .missingFixture)
          | some ref =>
            if shot = ref then
              (⟨rest, shots2, { eff3 with deleted := eff3.deleted + 1 }⟩, none)
            else
              (⟨rest, shots2, { eff3 with cmpFailed := true }⟩, some .cmpMismatch)
      else ({ st with eff := eff2, msgs := rest }, some .badReply)
  else (st, none)

/-- The serial-pipe monitoring loop over the console lines; stops at the
first exception. -/
def monLoop (fixtures : List (List Char × List Nat)) :
    List (List Char) → MonState → MonState × Option HarnessError
  | [], st => (st, none)
  | l :: ls, st =>
    match monStep fixtures l st with
    | (st2, some e) => (st2, some e)
    | (st2, none) => monLoop fixtures ls st2

/-- One iteration of the stdout monitoring loop
(`src/uefi-test-runner/build.py` lines 288-323): strip whitespace and
ANSI escapes; skip the line if nothing remains; echo it; then on a
trigger match proceed exactly as the serial variant, acknowledging on
`qemu.stdin`. -/
def stdoutStep (fixtures : List (List Char × List Nat)) (raw : List Char)
    (st : MonState) : MonState × Option HarnessError :=
  let stripped := stripAnsi (pyStrip raw)
  if stripped = [] then (st, none)
  else
    let eff1 := { st.eff with echoed := st.eff.echoed ++ [stripped] }
    if trigMarker.isPrefixOf stripped then
      let name := stripped.drop 12
      let eff2 := { eff1 with monitorWrites := eff1.monitorWrites ++ [screendumpCmdText] }
      match replyLoopRunner st.msgs with
      | none => ({ st with eff := eff2, msgs := [] }, some .replyParse)
      | some (_disc, reply, rest) =>
        if isEmptySuccess reply then
          let eff3 := { eff2 with ackWrites := eff2.ackWrites ++ [okAckText] }
          match st.shots with
          | [] => ({ st with eff := eff3, msgs := rest }, some .missingArtifact)
          | shot :: shots2 =>
            match fixtures.lookup name with
            | none => ({ st with eff := eff3, msgs := rest, shots := shots2 },
                some .missingFixture)
            | some ref =>
              if shot = ref then
                (⟨rest, shots2, { eff3 with deleted := eff3.deleted + 1 }⟩, none)
              else
                (⟨rest, shots2, { eff3 with cmpFailed := true }⟩, some .cmpMismatch)
        else ({ st with eff := eff2, msgs := rest }, some .badReply)
    else ({ st with eff := eff1 }, none)

/-- The stdout monitoring loop over the console lines; stops at the
first exception. -/
def stdoutLoop (fixtures : List (List Char × List Nat)) :
    List (List Char) → MonState → MonState × Option HarnessError
  | [], st => (st, none)
  | l :: ls, st =>
    match stdoutStep fixtures l st with
    | (st2, some e) => (st2, some e)
    | (st2, none) => stdoutLoop fixtures ls st2

/-- Outcome of `Popen.wait(timeout)`: the process exited with a code,
`subprocess.TimeoutExpired` was raised, or the call blocks forever. -/
inductive WaitOutcome : Type where
  | exited : Int → WaitOutcome
  | timeoutEx : WaitOutcome
  | hangForever : WaitOutcome
deriving DecidableEq

/-- Semantics of `Popen.wait`: with no timeout argument the call blocks
until the process exits (forever, if it never does); with a timeout it
raises `TimeoutExpired` when the process has not exited by then.  The
process behaviour is `none` (never exits) or `some (time, code)`. -/
def waitCall (timeoutArg : Option Nat) (exitBehaviour : Option (Nat × Int)) :
    WaitOutcome :=
  match timeoutArg, exitBehaviour with
  | none, some (_, c) => .exited c
  | none, none => .hangForever
  | some t, some (e, c) => if e ≤ t then .exited c else .timeoutEx
  | some _, none => .timeoutEx

/-- Overall outcome of a run: returned normally, raised an exception, or
blocked forever. -/
inductive Outcome : Type where
  | success : Outcome
  | failed : HarnessError → Outcome
  | hang : Outcome
deriving DecidableEq

/-- End-of-run status check of the serial-pipe variant (`src/build.py`
lines 417-419): `if status != 0 and status != 3: raise CalledProcessError`;
an exception raised here replaces any exception from the monitored block
(Python `finally` semantics), otherwise the body's exception, if any,
propagates. -/
def statusGateMain (status : Int) (bodyErr : Option HarnessError) : Outcome :=
  if status ≠ 0 ∧ status ≠ 3 then .failed (.procFail status)
  else
    match bodyErr with
    | some e => .failed e
    | none => .success

/-- End-of-run status check of the stdout variant
(`src/uefi-test-runner/build.py` lines 337-339): `if status != 0: raise`. -/
def statusGateRunner (status : Int) (bodyErr : Option HarnessError) : Outcome :=
  if status ≠ 0 then .failed (.procFail status)
  else
    match bodyErr with
    | some e => .failed e
    | none => .success

/-- The four fifo paths created by the serial-pipe variant
(`Pipe.__init__`, `src/build.py` lines 240-247, for base names
`qemu-monitor` and `serial-pipe`). -/
def pipePathsMain : List (List Char) :=
  ["qemu-monitor.in".data, "qemu-monitor.out".data,
   "serial-pipe.in".data, "serial-pipe.out".data]

/-- The two fifo paths created by the stdout variant
(`src/uefi-test-runner/build.py` lines 271-274). -/
def pipePathsRunner : List (List Char) :=
  ["qemu-monitor.in".data, "qemu-monitor.out".data]

/-- Environment-supplied data driving one run. -/
structure RunInput : Type where
  line1 : List Char
  line2 : List Char
  consoleLines : List (List Char)
  monitorMsgs : List JMsg
  screenshots : List (List Nat)
  fixtures : List (List Char × List Nat)
  spawnOk : Bool
  exitBehaviour : Option (Nat × Int)

/-- Result of one run: outcome, fifo paths created and removed, whether
the process was killed, and the recorded effects. -/
structure RunResult : Type where
  outcome : Outcome
  created : List (List Char)
  removed : List (List Char)
  killed : Bool
  eff : Effects

/-- The monitored block of the serial-pipe variant (the `try` body,
`src/build.py` lines 358-403): handshake, then the monitoring loop. -/
def runBodyMain (inp : RunInput) : MonState × Option HarnessError :=
  let hs := handshake inp.line1 inp.line2
  let eff0 : Effects := { emptyEffects with monitorWrites := hs.writes }
  match hs.err with
  | some .badBanner => (⟨inp.monitorMsgs, inp.screenshots, eff0⟩, some .hsBanner)
  | some .badAck => (⟨inp.monitorMsgs, inp.screenshots, eff0⟩, some .hsAck)
  | none => monLoop inp.fixtures inp.consoleLines ⟨inp.monitorMsgs, inp.screenshots, eff0⟩

/-- `run_qemu` of the serial-pipe variant (`src/build.py` lines 253-421),
from fifo creation onward: create the four fifos; spawn QEMU (a `Popen`
failure propagates before the `try` block is entered, so no fifo is
removed); run the monitored block; then the `finally` block: `qemu.wait()`
— called with NO timeout argument, transcribed as `waitCall none` — with
the source's `except TimeoutExpired` handler (kill, synthetic status -1)
as the `timeoutEx` branch, then remove the four fifo paths and apply the
status gate. -/
def runQemu (inp : RunInput) : RunResult :=
  if inp.spawnOk then
    let body := runBodyMain inp
    match waitCall none inp.exitBehaviour with
    | .hangForever => ⟨.hang, pipePathsMain, [], false, body.1.eff⟩
    | .timeoutEx => ⟨statusGateMain (-1) body.2, pipePathsMain, pipePathsMain, true, body.1.eff⟩
    | .exited c => ⟨statusGateMain c body.2, pipePathsMain, pipePathsMain, false, body.1.eff⟩
  else ⟨.failed .spawnFail, pipePathsMain, [], false, emptyEffects⟩

/-- The monitored block of the stdout variant (the `try` body,
`src/uefi-test-runner/build.py` lines 278-323). -/
def runBodyStdout (inp : RunInput) : MonState × Option HarnessError :=
  let hs := handshake inp.line1 inp.line2
  let eff0 : Effects := { emptyEffects with monitorWrites := hs.writes }
  match hs.err with
  | some .badBanner => (⟨inp.monitorMsgs, inp.screenshots, eff0⟩, some .hsBanner)
  | some .badAck => (⟨inp.monitorMsgs, inp.screenshots, eff0⟩, some .hsAck)
  | none => stdoutLoop inp.fixtures inp.consoleLines ⟨inp.monitorMsgs, inp.screenshots, eff0⟩

/-- `run_qemu` of the stdout variant (`src/uefi-test-runner/build.py`
lines 177-339), from fifo creation onward; identical shape, with two
fifos and the stricter status gate. -/
def runQemuStdout (inp : RunInput) : RunResult :=
  if inp.spawnOk then
    let body := runBodyStdout inp
    match waitCall none inp.exitBehaviour with
    | .hangForever => ⟨.hang, pipePathsRunner, [], false, body.1.eff⟩
    | .timeoutEx =>
        ⟨statusGateRunner (-1) body.2, pipePathsRunner, pipePathsRunner, true, body.1.eff⟩
    | .exited c =>
        ⟨statusGateRunner c body.2, pipePathsRunner, pipePathsRunner, false, body.1.eff⟩
  else ⟨.failed .spawnFail, pipePathsRunner, [], false, emptyEffects⟩

/-! ## Concrete inputs used by the claim theorems -/

/-- Input whose first stripping pass creates a fresh escape sequence:
`ESC ESC [ @ [ @` strips to `ESC [ @` (the match at positions 1-3 is
removed, gluing the leading `ESC` to the leftover `[ @`), and a second
pass strips that to the empty line. -/
def c8Input : List Char := [escChar, escChar, '[', '@', '[', '@']

/-- A capabilities banner that carries the marker key `"QMP"` but whose
serialized line does not begin with it: `{"foo": 1, "QMP": {}}`. -/
def c4Banner : JMsg := [("foo", JValue.jnum 1), ("QMP", JValue.jobj JFields.fnil)]

/-- Monitoring state with the canonical reply queued and one produced
screenshot whose bytes are `[2]`. -/
def c3State : MonState := ⟨[emptySuccessMsg], [[2]], emptyEffects⟩

/-- A trigger line for fixture identifier `x`. -/
def c3Line : List Char := "SCREENSHOT: x".data

/-- Fixture store in which fixture `x` has bytes `[1]` — differing from
the produced screenshot's `[2]` in a single byte. -/
def c3Fixtures : List (List Char × List Nat) := [("x".data, [1])]

/-- Empty monitoring state. -/
def c10State : MonState := ⟨[], [], emptyEffects⟩

/-- A non-trigger console line. -/
def c10Line : List Char := "hello world\n".data

/-- A run whose handshake lines are well-formed, with no console traffic,
whose process exits with code 3. -/
def c6Input : RunInput :=
  ⟨bannerMarkerText, ackReplyText, [], [], [], [], true, some (0, 3)⟩

/-- A run in which `Popen` fails (e.g. the QEMU binary is absent) after
the fifos were created. -/
def c7Input : RunInput :=
  ⟨bannerMarkerText, ackReplyText, [], [], [], [], false, some (0, 0)⟩

/-- A run whose child process never exits. -/
def c2HangInput : RunInput :=
  ⟨bannerMarkerText, ackReplyText, [], [], [], [], true, none⟩

/-- A run that completes cleanly with exit code 0. -/
def cleanRunInput : RunInput :=
  ⟨bannerMarkerText, ackReplyText, [], [], [], [], true, some (1, 0)⟩

/-! # Helper lemmas -/

theorem matchCsiBody_lt {l r : List Char} (h : matchCsiBody l = some r) :
    r.length < l.length := by
  unfold matchCsiBody at h
  have hlen : ((l.dropWhile isCsiParam).dropWhile isCsiInterm).length ≤ l.length :=
    le_trans (List.Sublist.length_le (List.dropWhile_sublist _))
      (List.Sublist.length_le (List.dropWhile_sublist _))
  cases hd : (l.dropWhile isCsiParam).dropWhile isCsiInterm with
  | nil => rw [hd] at h; simp [matchFinal] at h
  | cons c rest =>
    rw [hd] at h hlen
    simp only [matchFinal] at h
    by_cases hf : isCsiFinal c
    · rw [if_pos hf] at h
      have : rest = r := by simpa using h
      subst this
      simp only [List.length_cons] at hlen
      omega
    · rw [if_neg hf] at h; simp at h

theorem matchCsi_lt {l r : List Char} (h : matchCsi l = some r) :
    r.length < l.length := by
  match l with
  | [] => simp [matchCsi] at h
  | [c] =>
    simp only [matchCsi] at h
    split at h
    · exact absurd (matchCsiBody_lt h) (by simp)
    · simp at h
  | c :: c2 :: rest2 =>
    simp only [matchCsi] at h
    split at h
    · have := matchCsiBody_lt h
      simp only [List.length_cons] at this ⊢
      omega
    · split at h
      · have := matchCsiBody_lt h
        simp only [List.length_cons] at this ⊢
        omega
      · simp at h

/-- The fuel device is harmless: any fuel at least the list length
computes the same result. -/
theorem stripAnsiGo_fuel : ∀ (f g : Nat) (l : List Char),
    l.length ≤ f → l.length ≤ g → stripAnsiGo f l = stripAnsiGo g l := by
  intro f
  induction f with
  | zero =>
    intro g l hf _
    have : l = [] := List.length_eq_zero.mp (Nat.le_zero.mp hf)
    subst this
    cases g <;> rfl
  | succ f ih =>
    intro g l hf hg
    cases l with
    | nil => cases g <;> rfl
    | cons c cs =>
      cases g with
      | zero => simp at hg
      | succ g =>
        simp only [stripAnsiGo]
        cases hm : matchCsi (c :: cs) with
        | some rest =>
          have hlt := matchCsi_lt hm
          simp only [List.length_cons] at hf hg hlt
          exact ih g rest (by omega) (by omega)
        | none =>
          simp only [List.length_cons] at hf hg
          rw [ih g cs (by omega) (by omega)]

theorem isPrefixOf_exists_suffix :
    ∀ (p l : List Char), p.isPrefixOf l = true → ∃ t, l = p ++ t := by
  intro p
  induction p with
  | nil => intro l _; exact ⟨l, rfl⟩
  | cons a p ih =>
    intro l h
    cases l with
    | nil => simp [List.isPrefixOf] at h
    | cons b l =>
      simp only [List.isPrefixOf, Bool.and_eq_true, beq_iff_eq] at h
      obtain ⟨h1, h2⟩ := h
      obtain ⟨t, ht⟩ := ih l h2
      exact ⟨t, by simp [h1, ht]⟩

theorem head?_dropWhile_false {α : Type} (p : α → Bool) :
    ∀ (l : List α) (c : α), (l.dropWhile p).head? = some c → p c = false := by
  intro l
  induction l with
  | nil => intro c h; simp at h
  | cons a l ih =>
    intro c h
    by_cases hp : p a
    · rw [List.dropWhile_cons, if_pos hp] at h
      exact ih c h
    · rw [List.dropWhile_cons, if_neg hp] at h
      have : a = c := by simpa using h
      subst this
      simpa using hp

theorem pyRstrip_noTrailingWs (l : List Char) : noTrailingWs (pyRstrip l) = true := by
  unfold pyRstrip noTrailingWs
  rw [List.getLast?_reverse]
  cases hh : (List.dropWhile isPyWs l.reverse).head? with
  | none => simp [hh]
  | some c => simp [hh, head?_dropWhile_false isPyWs _ c hh]

theorem noTrailingWs_append {a b : List Char} (hb : b ≠ []) :
    noTrailingWs (a ++ b) = noTrailingWs b := by
  unfold noTrailingWs
  rw [List.getLast?_append_of_ne_nil a hb]

/-- An error-free monitoring iteration never sets the comparison-failure
flag (serial variant). -/
theorem monStep_cmpFailed (fixtures : List (List Char × List Nat))
    (raw : List Char) (st : MonState) :
    (monStep fixtures raw st).2 = none →
    (monStep fixtures raw st).1.eff.cmpFailed = st.eff.cmpFailed := by
  simp only [monStep]
  split
  · split
    · intro h; simp at h
    · split
      · split
        · intro h; simp at h
        · split
          · intro h; simp at h
          · split
            · intro _; rfl
            · intro h; simp at h
      · intro h; simp at h
  · intro _; rfl

/-- An error-free monitoring run never sets the comparison-failure flag
(serial variant). -/
theorem monLoop_cmpFailed (fixtures : List (List Char × List Nat)) :
    ∀ (lines : List (List Char)) (st : MonState),
    (monLoop fixtures lines st).2 = none →
    (monLoop fixtures lines st).1.eff.cmpFailed = st.eff.cmpFailed := by
  intro lines
  induction lines with
  | nil => intro st _; rfl
  | cons l ls ih =>
    intro st
    simp only [monLoop]
    cases hs : monStep fixtures l st with
    | mk st2 e =>
      cases e with
      | some e2 => intro h; simp at h
      | none =>
        intro h
        have h2 := monStep_cmpFailed fixtures l st
        rw [hs] at h2
        exact (ih st2 h).trans (h2 rfl)

/-- An error-free monitored block leaves the comparison-failure flag
clear (serial variant). -/
theorem runBodyMain_cmpFailed (inp : RunInput) :
    (runBodyMain inp).2 = none →
    (runBodyMain inp).1.eff.cmpFailed = false := by
  simp only [runBodyMain]
  split
  · intro h; simp at h
  · intro h; simp at h
  · intro h
    rw [monLoop_cmpFailed inp.fixtures inp.consoleLines _ h]
    rfl

/-! # Claim theorems -/

/-! ## Claim C1 -/

/-- **C1.** After a screendump command is written, the reply-correlation
loop returns exactly the first message on the reply stream that does not
contain the key `"event"`, discarding all preceding event messages in
their arrival order (so no event causes a duplicate or missing reply):
whenever the loop returns, the discarded messages are exactly the leading
run of event messages, the reply is the first non-event message, and the
rest of the stream is untouched; and the loop does return whenever a
non-event message is present. -/
theorem c1_reply_correlation :
    (∀ msgs disc r rem, replyLoopMain msgs = some (disc, r, rem) →
      disc = msgs.takeWhile hasEventKey ∧
      hasEventKey r = false ∧
      msgs.dropWhile hasEventKey = r :: rem) ∧
    (∀ msgs : List JMsg, msgs.dropWhile hasEventKey ≠ [] →
      (replyLoopMain msgs).isSome = true) := by
  constructor
  · intro msgs
    induction msgs with
    | nil => intro disc r rem h; simp [replyLoopMain] at h
    | cons m rest ih =>
      intro disc r rem h
      by_cases he : hasEventKey m
      · simp only [replyLoopMain, he, if_true] at h
        cases hrec : replyLoopMain rest with
        | none => rw [hrec] at h; simp at h
        | some t =>
          obtain ⟨d2, r2, rem2⟩ := t
          rw [hrec] at h
          simp only [Option.some.injEq, Prod.mk.injEq] at h
          obtain ⟨h1, h2, h3⟩ := h
          subst h1; subst h2; subst h3
          obtain ⟨ih1, ih2, ih3⟩ := ih d2 r2 rem2 hrec
          refine ⟨?_, ih2, ?_⟩
          · simp [List.takeWhile_cons, he, ih1]
          · simp [List.dropWhile_cons, he, ih3]
      · simp only [replyLoopMain, he, Bool.false_eq_true, if_false,
          Option.some.injEq, Prod.mk.injEq] at h
        obtain ⟨h1, h2, h3⟩ := h
        subst h1; subst h2; subst h3
        refine ⟨?_, by simpa using he, ?_⟩
        · simp [List.takeWhile_cons, he]
        · simp [List.dropWhile_cons, he]
  · intro msgs
    induction msgs with
    | nil => intro h; simp at h
    | cons m rest ih =>
      intro h
      by_cases he : hasEventKey m
      · simp only [List.dropWhile_cons, he, if_true] at h
        have := ih h
        simp only [replyLoopMain, he, if_true]
        cases hrec : replyLoopMain rest with
        | none => rw [hrec] at this; simp at this
        | some t => obtain ⟨d2, r2, rem2⟩ := t; simp
      · simp [replyLoopMain, he]

/-- Witness for C1 on the spec's example: the stream
`[{"event": "STOP"}, {"return": {}}]` yields the reply `{"return": {}}`
with the single event discarded. -/
theorem c1_reply_correlation_witness :
    [eventStopMsg, emptySuccessMsg].takeWhile hasEventKey = [eventStopMsg] ∧
    hasEventKey emptySuccessMsg = false ∧
    [eventStopMsg, emptySuccessMsg].dropWhile hasEventKey = [emptySuccessMsg] :=
  c1_reply_correlation.1 [eventStopMsg, emptySuccessMsg] [eventStopMsg]
    emptySuccessMsg [] rfl

/-! ## Claim C2 -/

/-- **C2 (code bug).** The DRAINING phase is not in fact bounded by a
timeout: `qemu.wait()` is called with no timeout argument
(`src/build.py` line 407, `src/uefi-test-runner/build.py` line 327), so
`subprocess.TimeoutExpired` can never be raised — a wait with no timeout
either returns the exit code or blocks forever — and the source's
`except TimeoutExpired` handler (kill, synthetic status -1) is dead code:
no run ever kills the process, and on a child process that never exits
the harness hangs with the fifo paths never removed, instead of killing
QEMU, recording -1 and removing the pipes as the claim describes. -/
theorem c2_wait_unbounded :
    (∀ exitBehaviour : Option (Nat × Int),
      waitCall none exitBehaviour = .hangForever ∨
      ∃ c, waitCall none exitBehaviour = .exited c) ∧
    (∀ inp : RunInput, (runQemu inp).killed = false) ∧
    (runQemu c2HangInput).outcome = .hang ∧
    (runQemu c2HangInput).removed = [] ∧
    (runQemu c2HangInput).killed = false := by
  refine ⟨?_, ?_, rfl, rfl, rfl⟩
  · intro ex
    cases ex with
    | none => left; rfl
    | some tc => obtain ⟨t, c⟩ := tc; right; exact ⟨c, rfl⟩
  · intro inp
    unfold runQemu
    by_cases hsp : inp.spawnOk = true
    · rw [if_pos hsp]
      cases hex : inp.exitBehaviour with
      | none => simp [waitCall]
      | some tc => obtain ⟨t, c⟩ := tc; simp [waitCall]
    · rw [if_neg hsp]

/-! ## Claim C3 -/

/-- **C3 counterexample.** A trigger whose produced screenshot (bytes
`[2]`) differs from the fixture (bytes `[1]`) in a single byte does not
record a failure and continue: the iteration aborts with the comparison
assertion (a harness exception), the screenshot is NOT deleted, and a
subsequent trigger line is never processed (only one screendump command
is ever written). -/
theorem c3_compare_counterexample :
    (monStep c3Fixtures c3Line c3State).2 = some .cmpMismatch ∧
    (monStep c3Fixtures c3Line c3State).1.eff.deleted = 0 ∧
    (monStep c3Fixtures c3Line c3State).1.eff.cmpFailed = true ∧
    (monLoop c3Fixtures [c3Line, c3Line] c3State).1.eff.monitorWrites.length = 1 :=
  ⟨rfl, rfl, rfl, rfl⟩

/-- **C3 amended.** For a trigger handled in the monitoring loop (good
reply, artifact and fixture present): if the produced screenshot is
byte-identical to the fixture, the iteration succeeds, the screenshot is
deleted, and monitoring continues with the remaining lines; if any byte
differs, the iteration aborts with the comparison-assertion exception,
the run is marked failed, the screenshot is NOT deleted, and monitoring
does NOT continue (remaining lines are never processed). -/
theorem c3_compare_amended :
    ∀ (fixtures : List (List Char × List Nat)) (raw : List Char)
      (more : List (List Char)) (msgs : List JMsg) (shots2 : List (List Nat))
      (eff : Effects) (disc : List JMsg) (reply : JMsg) (rest : List JMsg)
      (shot ref : List Nat),
      trigMarker.isPrefixOf (pyRstrip raw) = true →
      replyLoopMain msgs = some (disc, reply, rest) →
      isEmptySuccess reply = true →
      fixtures.lookup ((pyRstrip raw).drop 12) = some ref →
      (shot = ref →
        monStep fixtures raw ⟨msgs, shot :: shots2, eff⟩ =
          (⟨rest, shots2,
            { monitorWrites := eff.monitorWrites ++ [screendumpCmdText],
              ackWrites := eff.ackWrites ++ [okAckText],
              echoed := eff.echoed ++ [pyRstrip raw],
              deleted := eff.deleted + 1,
              cmpFailed := eff.cmpFailed }⟩, none) ∧
        monLoop fixtures (raw :: more) ⟨msgs, shot :: shots2, eff⟩ =
          monLoop fixtures more (monStep fixtures raw ⟨msgs, shot :: shots2, eff⟩).1) ∧
      (shot ≠ ref →
        monStep fixtures raw ⟨msgs, shot :: shots2, eff⟩ =
          (⟨rest, shots2,
            { monitorWrites := eff.monitorWrites ++ [screendumpCmdText],
              ackWrites := eff.ackWrites ++ [okAckText],
              echoed := eff.echoed ++ [pyRstrip raw],
              deleted := eff.deleted,
              cmpFailed := true }⟩, some .cmpMismatch) ∧
        monLoop fixtures (raw :: more) ⟨msgs, shot :: shots2, eff⟩ =
          ((monStep fixtures raw ⟨msgs, shot :: shots2, eff⟩).1, some .cmpMismatch)) := by
  intro fixtures raw more msgs shots2 eff disc reply rest shot ref hp hr he hlk
  constructor
  · intro hq
    have hstep : monStep fixtures raw ⟨msgs, shot :: shots2, eff⟩ =
        (⟨rest, shots2,
          { monitorWrites := eff.monitorWrites ++ [screendumpCmdText],
            ackWrites := eff.ackWrites ++ [okAckText],
            echoed := eff.echoed ++ [pyRstrip raw],
            deleted := eff.deleted + 1,
            cmpFailed := eff.cmpFailed }⟩, none) := by
      simp only [monStep, hp, if_true, hr, he, hlk]
      rw [if_pos hq]
    refine ⟨hstep, ?_⟩
    simp only [monLoop, hstep]
  · intro hq
    have hstep : monStep fixtures raw ⟨msgs, shot :: shots2, eff⟩ =
        (⟨rest, shots2,
          { monitorWrites := eff.monitorWrites ++ [screendumpCmdText],
            ackWrites := eff.ackWrites ++ [okAckText],
            echoed := eff.echoed ++ [pyRstrip raw],
            deleted := eff.deleted,
            cmpFailed := true }⟩, some .cmpMismatch) := by
      simp only [monStep, hp, if_true, hr, he, hlk]
      rw [if_neg hq]
    refine ⟨hstep, ?_⟩
    simp only [monLoop, hstep]

/-- Witness for C3 amended: a trigger for fixture `x` whose produced
screenshot equals the fixture bytes `[1]` succeeds and deletes the
artifact. -/
theorem c3_compare_amended_witness :
    monStep [("x".data, [1])] c3Line ⟨[emptySuccessMsg], [[1]], emptyEffects⟩ =
      (⟨[], [],
        { monitorWrites := [screendumpCmdText],
          ackWrites := [okAckText],
          echoed := [pyRstrip c3Line],
          deleted := 1,
          cmpFailed := false }⟩, none) := by
  have h := (c3_compare_amended [("x".data, [1])] c3Line [] [emptySuccessMsg] []
    emptyEffects [] emptySuccessMsg [] [1] [1]
    (by decide) rfl (by decide) (by decide)).1 rfl
  simpa [emptyEffects] using h.1

/-! ## Claim C4 -/

/-- **C4 counterexample.** The handshake checks a literal text prefix,
not the marker key: the well-formed banner `{"foo": 1, "QMP": {}}`
carries the marker key `"QMP"` yet the handshake rejects it fatally even
with the canonical ack reply following; conversely a first line made of
a brace, the quoted QMP key, a colon and the text ` oops` — not a JSON
object at all — passes together with the canonical ack. -/
theorem c4_handshake_counterexample :
    hasKeyMsg c4Banner "QMP" = true ∧
    (handshake (serializeMsg c4Banner) ackReplyText).err = some .badBanner ∧
    (handshake ("\x7b\"QMP\": oops".data) ackReplyText).err = none := by
  refine ⟨by decide, by decide, by decide⟩

/-- **C4 amended.** The handshake completes without error exactly when
the first reply line begins with the literal text of the banner marker
(an opening brace, the quoted key `QMP`, a colon) and the second line is
exactly the canonical empty-success reply line; any other pair of lines
fails fatally.  Whether the first line is a JSON object carrying the
marker key is neither necessary nor sufficient. -/
theorem c4_handshake_amended :
    ∀ l1 l2, (handshake l1 l2).err = none ↔
      (bannerMarkerText.isPrefixOf l1 = true ∧ l2 = ackReplyText) := by
  intro l1 l2
  unfold handshake
  split_ifs with h1 h2 <;> simp_all

/-- Witness for C4 amended: the genuine banner `{"QMP": {}}` plus the
canonical ack reply complete the handshake without error. -/
theorem c4_handshake_amended_witness :
    (handshake (serializeMsg [("QMP", JValue.jobj JFields.fnil)]) ackReplyText).err = none :=
  (c4_handshake_amended (serializeMsg [("QMP", JValue.jobj JFields.fnil)])
    ackReplyText).mpr ⟨by decide, rfl⟩

/-! ## Claim C5 -/

/-- **C5 counterexample.** The console line `"SCREENSHOT:  boot\n"` (two
spaces after the colon) matches the trigger marker after rstripping, and
the extracted fixture identifier is `" boot"` — the exact substring after
the marker — which begins with a whitespace character, contradicting the
claim that the identifier carries no leading whitespace. -/
theorem c5_extract_counterexample :
    extractTrigger ("SCREENSHOT:  boot\n".data) = some (" boot".data) ∧
    (" boot".data).head? = some ' ' ∧ isPyWs ' ' = true := by
  refine ⟨by decide, by decide, by decide⟩

/-- **C5 amended.** For every line matching the trigger form, the
extracted identifier is the exact remainder of the rstripped line after
the 12-character marker — so it carries no trailing whitespace, but any
whitespace immediately after the marker is preserved at its front; and a
line whose rstripped form does not start with the marker produces no
trigger. -/
theorem c5_extract_amended :
    (∀ raw name, extractTrigger raw = some name →
      pyRstrip raw = trigMarker ++ name ∧ noTrailingWs name = true) ∧
    (∀ raw, trigMarker.isPrefixOf (pyRstrip raw) = false →
      extractTrigger raw = none) := by
  constructor
  · intro raw name h
    simp only [extractTrigger] at h
    split at h
    · obtain ⟨t, ht⟩ := isPrefixOf_exists_suffix trigMarker (pyRstrip raw) (by assumption)
      have hlen : trigMarker.length = 12 := by decide
      have hname : name = t := by
        have hdrop : (pyRstrip raw).drop 12 = t := by
          rw [ht, ← hlen, List.drop_left]
        have : some ((pyRstrip raw).drop 12) = some name := h
        simp only [Option.some.injEq] at this
        rw [← this, hdrop]
      subst hname
      refine ⟨ht, ?_⟩
      cases hn : name with
      | nil => rfl
      | cons c cs =>
        have hne : name ≠ [] := by rw [hn]; simp
        have := pyRstrip_noTrailingWs raw
        rw [ht, noTrailingWs_append hne] at this
        rw [← hn]
        exact this
    · simp at h
  · intro raw hp
    simp only [extractTrigger, hp, Bool.false_eq_true, if_false]

/-- Witness for C5 amended on the line `"SCREENSHOT: abc\n"`: the
identifier `"abc"` is the exact remainder and has no trailing
whitespace. -/
theorem c5_extract_amended_witness :
    pyRstrip ("SCREENSHOT: abc\n".data) = trigMarker ++ "abc".data ∧
    noTrailingWs ("abc".data) = true :=
  c5_extract_amended.1 ("SCREENSHOT: abc\n".data) ("abc".data) (by decide)

/-! ## Claim C6 -/

/-- **C6 counterexample.** The claimed allow-list {0, 3} does not hold
for the stdout variant: on a clean run (no comparison failure) whose
child exits with code 3, the stdout variant raises `CalledProcessError`
(its gate is `status != 0`), while the serial-pipe variant succeeds on
the same run. -/
theorem c6_status_counterexample :
    (runQemuStdout c6Input).eff.cmpFailed = false ∧
    (runQemuStdout c6Input).outcome = .failed (.procFail 3) ∧
    (runQemu c6Input).outcome = .success :=
  ⟨rfl, rfl, rfl⟩

/-- **C6 amended.** Success requires the variant's own allow-list and a
clean run: a successful serial-pipe run implies the child exited with
code 0 or 3 and no byte-comparison failure was recorded; with any other
exit code (the synthetic -1 included, were it reachable) the serial-pipe
run fails with `CalledProcessError`; and in the stdout variant the
allow-list is {0} alone, so even exit code 3 fails. -/
theorem c6_status_amended :
    (∀ inp : RunInput, (runQemu inp).outcome = .success →
      (∃ t c, inp.exitBehaviour = some (t, c) ∧ (c = 0 ∨ c = 3)) ∧
      (runQemu inp).eff.cmpFailed = false) ∧
    (∀ (inp : RunInput) (t : Nat) (c : Int), inp.exitBehaviour = some (t, c) →
      inp.spawnOk = true → c ≠ 0 → c ≠ 3 →
      (runQemu inp).outcome = .failed (.procFail c)) ∧
    (∀ (inp : RunInput) (t : Nat) (c : Int), inp.exitBehaviour = some (t, c) →
      inp.spawnOk = true → c ≠ 0 →
      (runQemuStdout inp).outcome = .failed (.procFail c)) := by
  refine ⟨?_, ?_, ?_⟩
  · intro inp h
    by_cases hsp : inp.spawnOk = true
    · cases hex : inp.exitBehaviour with
      | none =>
        exfalso
        simp only [runQemu, if_pos hsp, hex, waitCall] at h
        exact absurd h (by simp)
      | some tc =>
        obtain ⟨t, c⟩ := tc
        simp only [runQemu, if_pos hsp, hex, waitCall] at h ⊢
        have h2 : statusGateMain c (runBodyMain inp).2 = .success := h
        unfold statusGateMain at h2
        split at h2
        · simp at h2
        · rename_i hc
          have hc2 : c = 0 ∨ c = 3 := by tauto
          cases hb : (runBodyMain inp).2 with
          | some e => rw [hb] at h2; simp at h2
          | none =>
            refine ⟨⟨t, c, rfl, hc2⟩, ?_⟩
            exact runBodyMain_cmpFailed inp hb
    · exfalso
      simp only [runQemu, if_neg hsp] at h
      exact absurd h (by simp)
  · intro inp t c hex hsp hc0 hc3
    simp only [runQemu, if_pos hsp, hex, waitCall]
    show statusGateMain c (runBodyMain inp).2 = .failed (.procFail c)
    unfold statusGateMain
    rw [if_pos ⟨hc0, hc3⟩]
  · intro inp t c hex hsp hc0
    simp only [runQemuStdout, if_pos hsp, hex, waitCall]
    show statusGateRunner c (runBodyStdout inp).2 = .failed (.procFail c)
    unfold statusGateRunner
    rw [if_pos hc0]

/-- Witness for C6 amended: a clean run with exit code 0 satisfies the
success characterisation, and a clean run with exit code 3 fails in the
stdout variant. -/
theorem c6_status_amended_witness :
    ((∃ t c, cleanRunInput.exitBehaviour = some (t, c) ∧ (c = 0 ∨ c = 3)) ∧
      (runQemu cleanRunInput).eff.cmpFailed = false) ∧
    (runQemuStdout c6Input).outcome = .failed (.procFail 3) :=
  ⟨c6_status_amended.1 cleanRunInput rfl,
   c6_status_amended.2.2 c6Input 0 3 rfl rfl (by decide)⟩

/-! ## Claim C7 -/

/-- **C7 counterexample.** Not every exit path removes the fifo paths:
when `subprocess.Popen` raises (for example the QEMU binary is absent) —
a failure occurring after named-pipe creation but before entry into the
`try`/`finally` cleanup scope — all four fifo paths have been created and
none is removed, so they leak into the next run. -/
theorem c7_leak_counterexample :
    (runQemu c7Input).created = pipePathsMain ∧
    (runQemu c7Input).removed = [] :=
  ⟨rfl, rfl⟩

/-- **C7 amended.** Once the child process spawns successfully (so the
`try`/`finally` scope is entered) and the child eventually exits, every
exit path of the monitored block — normal completion or any harness
exception — removes exactly the four created fifo paths, each exactly
once (the path list is duplicate-free).  Failures between fifo creation
and process spawn leak the fifo files (see the counterexample), and a
never-exiting child hangs the run before removal. -/
theorem c7_cleanup_amended :
    ∀ (inp : RunInput) (t : Nat) (c : Int),
      inp.spawnOk = true → inp.exitBehaviour = some (t, c) →
      (runQemu inp).created = pipePathsMain ∧
      (runQemu inp).removed = pipePathsMain ∧
      pipePathsMain.Nodup := by
  intro inp t c hsp hex
  simp only [runQemu, if_pos hsp, hex, waitCall]
  exact ⟨trivial, trivial, by decide⟩

/-- Witness for C7 amended on a clean run. -/
theorem c7_cleanup_amended_witness :
    (runQemu cleanRunInput).created = pipePathsMain ∧
    (runQemu cleanRunInput).removed = pipePathsMain ∧
    pipePathsMain.Nodup :=
  c7_cleanup_amended cleanRunInput 1 0 rfl rfl

/-! ## Claim C10 -/

/-- **C10 counterexample.** In the serial-pipe variant a non-trigger
console line has NO effect at all — in particular it is not echoed (the
`print` sits inside the trigger branch; operator-visible echoing of that
variant happens on the separate stdout thread, not for serial lines), so
"the only effect is echoing the line" fails: the state, including the
echo log, is completely unchanged. -/
theorem c10_serial_noecho_counterexample :
    monStep [] c10Line c10State = (c10State, none) ∧
    c10State.eff.echoed = [] :=
  ⟨rfl, rfl⟩

/-- **C10 amended.** A console line that does not start with the trigger
marker (after the variant's whitespace/ANSI handling) causes no monitor
write, no monitor read, no acknowledgement write, and no file
creation/comparison/removal.  In the stdout variant its only effect is
echoing the cleaned line; in the serial-pipe variant a non-trigger line
has no effect whatsoever (it is not even echoed). -/
theorem c10_frame_amended :
    (∀ (fixtures : List (List Char × List Nat)) (raw : List Char) (st : MonState),
      trigMarker.isPrefixOf (pyRstrip raw) = false →
      monStep fixtures raw st = (st, none)) ∧
    (∀ (fixtures : List (List Char × List Nat)) (raw : List Char) (st : MonState),
      stripAnsi (pyStrip raw) ≠ [] →
      trigMarker.isPrefixOf (stripAnsi (pyStrip raw)) = false →
      stdoutStep fixtures raw st =
        ({ st with eff := { st.eff with
            echoed := st.eff.echoed ++ [stripAnsi (pyStrip raw)] } }, none)) := by
  constructor
  · intro fixtures raw st hp
    simp only [monStep, hp, Bool.false_eq_true, if_false]
  · intro fixtures raw st hne hp
    simp only [stdoutStep]
    rw [if_neg hne]
    simp only [hp, Bool.false_eq_true, if_false]

/-- Witness for C10 amended: a non-trigger line is inert in the
serial-pipe variant and only echoed in the stdout variant. -/
theorem c10_frame_amended_witness :
    monStep [] ("boot log line\n".data) c10State = (c10State, none) ∧
    stdoutStep [] ("hello world\n".data) c10State =
      ({ c10State with eff := { c10State.eff with
          echoed := c10State.eff.echoed ++ [stripAnsi (pyStrip ("hello world\n".data))] } },
        none) :=
  ⟨c10_frame_amended.1 [] ("boot log line\n".data) c10State (by decide),
   c10_frame_amended.2 [] ("hello world\n".data) c10State (by decide) (by decide)⟩

/-! ## Claim C8 -/

/-- **C8 counterexample.** The ANSI/CSI escape-stripping substitution is
not idempotent: on the concrete line `"\x1B\x1B[@[@"` one pass yields
`"\x1B[@"` — an already-stripped line — and applying the substitution to
it again is not a no-op (it yields the empty line). -/
theorem c8_strip_counterexample :
    stripAnsi c8Input = [escChar, '[', '@'] ∧
    stripAnsi (stripAnsi c8Input) ≠ stripAnsi c8Input := by
  constructor
  · decide
  · decide

/-- **C8 amended.** A line on which the escape regex does not match
anywhere is returned unchanged by the stripping substitution; but the
substitution is not idempotent in general, because removing a match can
splice the surrounding characters into a fresh escape sequence (see the
counterexample). -/
theorem c8_strip_amended :
    ∀ l : List Char, containsCsi l = false → stripAnsi l = l := by
  intro l
  induction l with
  | nil => intro _; rfl
  | cons c cs ih =>
    intro h
    simp only [containsCsi, Bool.or_eq_false_iff] at h
    obtain ⟨hm, hrest⟩ := h
    rw [show ((matchCsi (c :: cs)).isSome = false) ↔ matchCsi (c :: cs) = none from
      by simp [Option.isSome]; cases matchCsi (c :: cs) <;> simp] at hm
    simp only [stripAnsi, List.length_cons, stripAnsiGo, hm]
    exact congrArg (c :: ·) (ih hrest)

/-- Witness for C8 amended: an ordinary log line contains no escape
sequence and is left unchanged. -/
theorem c8_strip_amended_witness :
    containsCsi ("Boot complete".data) = false ∧
    stripAnsi ("Boot complete".data) = "Boot complete".data :=
  ⟨by decide, c8_strip_amended ("Boot complete".data) (by decide)⟩

/-! ## Claim C9 -/

/-- **C9.** The reply-correlation loops of the two harness variants are
equivalent: on every sequence of decoded JSON messages available on the
monitor reply stream they behave identically — same discarded events (so
the same number of lines consumed), same returned reply, same remaining
stream. -/
theorem c9_loops_equivalent :
    ∀ msgs : List JMsg, replyLoopMain msgs = replyLoopRunner msgs := by
  intro msgs
  induction msgs with
  | nil => rfl
  | cons m rest ih =>
    by_cases he : hasEventKey m
    · simp only [replyLoopMain, replyLoopRunner, he, if_true, ih]
    · simp [replyLoopMain, replyLoopRunner, he]
